import Mathlib

/-!
Verification of the cq-enclosure parametric enclosure generator.

The Python sources embedded here are:
  * `cq_enclosure/enclosure_parameters.py` — the parameter model
    (`EnclosureParameters`, its `initialize`, `validate` and derived
    properties);
  * `cq_enclosure/builders.py` — the screw-layout solver
    (`compute_screw_points`) and the footprint rectangles the gasket
    builders pass to the kernel;
  * `cq_enclosure/enclosure.py` — the build orchestrator
    (`Enclosure.build`).

Python floats are modelled as real numbers (the code uses `math.sqrt` and
`math.ceil`, so ℚ would not be closed under the operations involved).
Every mutation of the parameter object is modelled as a pure function from
the record to a new record.  Errors raised with `raise ValueError(...)`
become `Except EnclosureError` values, one constructor per distinct raise
site.  The solid-modelling kernel (cadquery) is outside the repository;
kernel-level operations are therefore modelled as opaque pipeline steps
(`BuildStep`) at the granularity of the builder functions, plus the exact
rectangle dimensions that the gasket builders pass to the kernel's `rect`
calls, which is the granularity the claims speak about.
-/

namespace CqEnclosure

/-- `NutPrintingWA` from `enclosure_parameters.py`. -/
inductive NutPrintingWA where
  | CUT_RECT_SPACES
  | ADD_CEILING
deriving DecidableEq

/-- `ScrewLocation` from `enclosure_parameters.py`. -/
inductive ScrewLocation where
  | INSIDE_BOX
  | OUTSIDE_BOX
deriving DecidableEq

/-- `ScrewType` from `enclosure_parameters.py`. -/
inductive ScrewType where
  | WOOD_SCREW
  | WITH_SQUARE_NUT
deriving DecidableEq

/-- The primary (user-set) fields of `EnclosureParameters`, with the default
values of the Python model. -/
structure EnclosureParameters where
  box_inner_width : ℝ
  box_inner_length : ℝ
  box_inner_height : ℝ
  actual_inner_width : Bool := true
  actual_inner_length : Bool := true
  cut_top : ℝ := 5.0
  screw_hole_diameter : ℝ := 3.0 + 0.3
  screw_head_diameter : ℝ := 6.0
  screw_total_length : ℝ := 16.0
  screw_location : ScrewLocation := ScrewLocation.OUTSIDE_BOX
  screw_type : ScrewType := ScrewType.WOOD_SCREW
  corner_screws : Bool := true
  middle_length_screws : Bool := false
  middle_width_screws : Bool := false
  square_nut_width : ℝ := 5.5
  square_nut_height : ℝ := 1.8
  nut_wa_type : NutPrintingWA := NutPrintingWA.ADD_CEILING
  gasket_height : ℝ := 1.6
  gasket_width : ℝ := 1.2
  gasket_spacing : ℝ := 0.15
  gasket_compression : ℝ := 0.2
  mount_holders : Bool := true
  mount_holder_length : ℝ := 15.0
  mount_holders_screw_hole_diameter : ℝ := 5.0
  mount_holders_head_screw_diameter : ℝ := 9.0
  mount_holders_fillet : Bool := true
  layer_height : ℝ := 0.28
  fillet_bottom : Bool := true
  fillet_top : Bool := true

namespace EnclosureParameters

/-- Property `wall_thickness`: fixed 3.0. -/
def wall_thickness (_ : EnclosureParameters) : ℝ := 3.0

/-- Property `bottom_and_lid_thickness`: fixed 2.0. -/
def bottom_and_lid_thickness (_ : EnclosureParameters) : ℝ := 2.0

/-- Property `screw_cylinder_radius`: `max(screw_hole_diameter, 3.0)`, also at
least the nut diagonal radius when fastening with a square nut, plus 1.6. -/
noncomputable def screw_cylinder_radius (p : EnclosureParameters) : ℝ :=
  let base_radius : ℝ := max p.screw_hole_diameter 3.0
  let base_radius : ℝ :=
    if p.screw_type = ScrewType.WITH_SQUARE_NUT then
      max (p.square_nut_width * Real.sqrt 2 / 2) base_radius
    else base_radius
  base_radius + 1.6

/-- Property `square_nut_depth_placement`. -/
noncomputable def square_nut_depth_placement (p : EnclosureParameters) : ℝ :=
  p.screw_total_length - 4.0

/-- Property `lid_screw_hole_diameter`. -/
noncomputable def lid_screw_hole_diameter (p : EnclosureParameters) : ℝ :=
  p.screw_hole_diameter + 1.0

/-- Property `box_screw_hole_radius`. -/
noncomputable def box_screw_hole_radius (p : EnclosureParameters) : ℝ :=
  p.screw_hole_diameter / 2

/-- Property `box_outer_width`. -/
noncomputable def box_outer_width (p : EnclosureParameters) : ℝ :=
  p.box_inner_width + 2 * p.wall_thickness

/-- Property `box_outer_length`. -/
noncomputable def box_outer_length (p : EnclosureParameters) : ℝ :=
  p.box_inner_length + 2 * p.wall_thickness

/-- Property `box_outer_height`. -/
noncomputable def box_outer_height (p : EnclosureParameters) : ℝ :=
  p.box_inner_height + 2 * p.bottom_and_lid_thickness

/-- Property `gasket_in_slot_distance`. -/
noncomputable def gasket_in_slot_distance (p : EnclosureParameters) : ℝ :=
  p.gasket_spacing * 2

/-- Property `gasket_slot_outer_width`. -/
noncomputable def gasket_slot_outer_width (p : EnclosureParameters) : ℝ :=
  p.box_outer_width - p.wall_thickness + p.gasket_width + p.gasket_in_slot_distance

/-- Property `gasket_slot_outer_length`. -/
noncomputable def gasket_slot_outer_length (p : EnclosureParameters) : ℝ :=
  p.box_outer_length - p.wall_thickness + p.gasket_width + p.gasket_in_slot_distance

/-- Property `gasket_slot_inner_width`. -/
noncomputable def gasket_slot_inner_width (p : EnclosureParameters) : ℝ :=
  p.box_outer_width - p.wall_thickness - p.gasket_width - p.gasket_in_slot_distance

/-- Property `gasket_slot_inner_length`. -/
noncomputable def gasket_slot_inner_length (p : EnclosureParameters) : ℝ :=
  p.box_outer_length - p.wall_thickness - p.gasket_width - p.gasket_in_slot_distance

/-- Property `gasket_outer_width`. -/
noncomputable def gasket_outer_width (p : EnclosureParameters) : ℝ :=
  p.gasket_slot_outer_width - p.gasket_in_slot_distance

/-- Property `gasket_outer_length`. -/
noncomputable def gasket_outer_length (p : EnclosureParameters) : ℝ :=
  p.gasket_slot_outer_length - p.gasket_in_slot_distance

/-- Property `gasket_inner_width`. -/
noncomputable def gasket_inner_width (p : EnclosureParameters) : ℝ :=
  p.gasket_slot_inner_width + p.gasket_in_slot_distance

/-- Property `gasket_inner_length`. -/
noncomputable def gasket_inner_length (p : EnclosureParameters) : ℝ :=
  p.gasket_slot_inner_length + p.gasket_in_slot_distance

/-- Property `gasket_slot_width`. -/
noncomputable def gasket_slot_width (p : EnclosureParameters) : ℝ :=
  p.gasket_width + p.gasket_in_slot_distance

/-- Property `mount_holders_total_length`. -/
noncomputable def mount_holders_total_length (p : EnclosureParameters) : ℝ :=
  p.box_outer_length + 2 * p.mount_holder_length

/-- Property `gasket_slot_depth`. -/
noncomputable def gasket_slot_depth (p : EnclosureParameters) : ℝ :=
  p.gasket_height * 2

/-- Property `gasket_press_height`. -/
noncomputable def gasket_press_height (p : EnclosureParameters) : ℝ :=
  p.gasket_height * (1 + p.gasket_compression)

/-- First block of `EnclosureParameters.initialize`: the four unconditional
manufacturing-clearance additions. -/
noncomputable def addClearances (p : EnclosureParameters) : EnclosureParameters :=
  { p with
    square_nut_width := p.square_nut_width + 0.4
    square_nut_height := p.square_nut_height + 0.4
    screw_head_diameter := p.screw_head_diameter + 0.5
    screw_total_length := p.screw_total_length + 1 }

/-- Second block of `EnclosureParameters.initialize`: for inside-box screw
placement, conditionally inflate the inner box dimensions by
`2 * (2 * screw_cylinder_radius - wall_thickness)`. -/
noncomputable def inflateInnerBox (p : EnclosureParameters) : EnclosureParameters :=
  if p.screw_location = ScrewLocation.INSIDE_BOX then
    let pw : EnclosureParameters :=
      if (p.corner_screws ∨ p.middle_length_screws) ∧ p.actual_inner_width then
        { p with
          box_inner_width :=
            p.box_inner_width + 2 * (2 * p.screw_cylinder_radius - p.wall_thickness) }
      else p
    if (pw.corner_screws ∨ pw.middle_width_screws) ∧ pw.actual_inner_length then
      { pw with
        box_inner_length :=
          pw.box_inner_length + 2 * (2 * pw.screw_cylinder_radius - pw.wall_thickness) }
    else pw
  else p

/-- Third block of `EnclosureParameters.initialize`: with mount holders,
middle-width screws and outside-box placement, raise `mount_holder_length` to
at least `math.ceil(screw_cylinder_radius * 4)`. -/
noncomputable def adjustMountHolderLength (p : EnclosureParameters) : EnclosureParameters :=
  if p.mount_holders ∧ p.middle_width_screws ∧
      p.screw_location = ScrewLocation.OUTSIDE_BOX then
    { p with
      mount_holder_length :=
        max p.mount_holder_length ((Int.ceil (p.screw_cylinder_radius * 4) : ℤ) : ℝ) }
  else p

/-- `EnclosureParameters.initialize`, as a pure state transformation: the
clearance additions, then the inner-box inflation, then the mount-holder
length adjustment, in the statement order of the Python method. -/
noncomputable def initialized (p : EnclosureParameters) : EnclosureParameters :=
  adjustMountHolderLength (inflateInnerBox (addClearances p))

/-- The distinct `ValueError` raise sites of `EnclosureParameters.validate`,
one constructor per message. -/
inductive EnclosureError where
  | noScrews
  | screwHoleDiameterOutOfRange
  | innerWidthGreaterThanInnerLength
  | mountHolderLengthTooSmall (needed : ℝ)
  | boxWidthTooSmallForMountHolders
  | invalidScrewLocation

/-- `EnclosureParameters.validate`: the five checks in the source's statement
order; the first violated one raises. The Python nested
`if (mount_holders and ...): if (mount_holder_length < ...)` pair is one
conjunction here — when the outer test holds and the inner one does not,
control falls through to the next check in both renderings. -/
noncomputable def validate (p : EnclosureParameters) : Except EnclosureError Unit :=
  if (if p.corner_screws then 1 else 0) + (if p.middle_length_screws then 1 else 0) +
      (if p.middle_width_screws then 1 else 0) = 0 then
    Except.error EnclosureError.noScrews
  else if p.screw_hole_diameter < 2.0 ∨ p.screw_hole_diameter > 6.0 then
    Except.error EnclosureError.screwHoleDiameterOutOfRange
  else if p.box_inner_width > p.box_inner_length then
    Except.error EnclosureError.innerWidthGreaterThanInnerLength
  else if p.mount_holders ∧ p.middle_width_screws ∧
      p.screw_location = ScrewLocation.OUTSIDE_BOX ∧
      p.mount_holder_length < p.screw_cylinder_radius * 4 then
    Except.error (EnclosureError.mountHolderLengthTooSmall (p.screw_cylinder_radius * 4))
  else if p.screw_location = ScrewLocation.OUTSIDE_BOX ∧ p.box_inner_width < 31.0 ∧
      p.mount_holders ∧ p.corner_screws then
    Except.error EnclosureError.boxWidthTooSmallForMountHolders
  else
    Except.ok ()

end EnclosureParameters

open EnclosureParameters

/-- `builders.compute_screw_points`: offsets from the placement mode, then the
point groups in insertion order (corners, middle-length, middle-width).  The
Python `match` has a `case _: raise` arm; the two-member `ScrewLocation` enum
makes that arm unreachable, and the closed Lean enum renders it exhaustive. -/
noncomputable def compute_screw_points (p : EnclosureParameters) : List (ℝ × ℝ) :=
  let screw_width_loc : ℝ :=
    match p.screw_location with
    | ScrewLocation.INSIDE_BOX =>
        p.box_inner_width / 2 - p.screw_cylinder_radius + p.wall_thickness
    | ScrewLocation.OUTSIDE_BOX =>
        p.box_outer_width / 2 + p.screw_cylinder_radius - p.wall_thickness
  let screw_lenght_loc : ℝ :=
    match p.screw_location with
    | ScrewLocation.INSIDE_BOX =>
        p.box_inner_length / 2 - p.screw_cylinder_radius + p.wall_thickness
    | ScrewLocation.OUTSIDE_BOX =>
        p.box_outer_length / 2 + p.screw_cylinder_radius - p.wall_thickness
  (if p.corner_screws then
    [(screw_width_loc, screw_lenght_loc), (-screw_width_loc, -screw_lenght_loc),
      (screw_width_loc, -screw_lenght_loc), (-screw_width_loc, screw_lenght_loc)]
  else []) ++
  (if p.middle_length_screws then [(-screw_width_loc, 0), (screw_width_loc, 0)] else []) ++
  (if p.middle_width_screws then [(0, -screw_lenght_loc), (0, screw_lenght_loc)] else [])

/-- `(width, length)` of the outer rectangle `builders.create_gasket_slot`
passes to its first `rect` call when cutting the groove into the box. -/
noncomputable def create_gasket_slot_rect_outer (p : EnclosureParameters) : ℝ × ℝ :=
  (p.gasket_slot_outer_width, p.gasket_slot_outer_length)

/-- `(width, length)` of the inner rectangle of the groove cut of
`builders.create_gasket_slot`. -/
noncomputable def create_gasket_slot_rect_inner (p : EnclosureParameters) : ℝ × ℝ :=
  (p.gasket_slot_inner_width, p.gasket_slot_inner_length)

/-- `(width, length)` of the outer rectangle `builders.create_gasket_press`
extrudes on the lid. -/
noncomputable def create_gasket_press_rect_outer (p : EnclosureParameters) : ℝ × ℝ :=
  (p.gasket_outer_width, p.gasket_outer_length)

/-- `(width, length)` of the inner rectangle of the press extrusion of
`builders.create_gasket_press`. -/
noncomputable def create_gasket_press_rect_inner (p : EnclosureParameters) : ℝ × ℝ :=
  (p.gasket_inner_width, p.gasket_inner_length)

/-- `(width, length)` of the outer rectangle `builders.build_gasket` extrudes
for the gasket body. -/
noncomputable def build_gasket_rect_outer (p : EnclosureParameters) : ℝ × ℝ :=
  (p.gasket_outer_width, p.gasket_outer_length)

/-- `(width, length)` of the inner rectangle of the gasket body of
`builders.build_gasket`. -/
noncomputable def build_gasket_rect_inner (p : EnclosureParameters) : ℝ × ℝ :=
  (p.gasket_inner_width, p.gasket_inner_length)

/-- The pipeline steps `Enclosure.build` can execute, one per builder call in
`enclosure.py` (the kernel operations inside each builder are outside the
repository's core and stay opaque at this granularity). -/
inductive BuildStep where
  | selectors
  | screwPoints
  | baseBox
  | screwCylinders
  | screwHoles
  | filletBox
  | nutHoles
  | splitBox
  | gasketSlot
  | gasketPress
  | gasketBody
  | gasketFillets
  | mountHolders
deriving DecidableEq

/-- `Enclosure.build`: initialize, validate (aborting on error), then the
builder calls of `enclosure.py` in statement order, recorded as the list of
executed pipeline steps; nut pockets run only for square-nut fastening and
mount holders only when enabled, both tested on the initialized parameters. -/
noncomputable def Enclosure.build (p : EnclosureParameters) :
    Except EnclosureError (List BuildStep) :=
  let q := p.initialized
  match q.validate with
  | Except.error e => Except.error e
  | Except.ok _ =>
      Except.ok
        ([BuildStep.selectors, BuildStep.screwPoints, BuildStep.baseBox,
          BuildStep.screwCylinders, BuildStep.screwHoles, BuildStep.filletBox] ++
        (if q.screw_type = ScrewType.WITH_SQUARE_NUT then [BuildStep.nutHoles] else []) ++
        [BuildStep.splitBox, BuildStep.gasketSlot, BuildStep.gasketPress,
          BuildStep.gasketBody, BuildStep.gasketFillets] ++
        (if q.mount_holders then [BuildStep.mountHolders] else []))

/-- The end-to-end scenario of the spec: inner dimensions 31×71×16,
outside-box placement, wood-screw fastening, corner screws off, middle-width
screws on, every other parameter at its default. -/
noncomputable def scenarioParams : EnclosureParameters :=
  { box_inner_width := 31
    box_inner_length := 71
    box_inner_height := 16
    corner_screws := false
    middle_width_screws := true }


namespace EnclosureParameters

/-- `inflateInnerBox` touches only the two inner box dimensions. -/
lemma inflateInnerBox_shape (p : EnclosureParameters) :
    ∃ w l, p.inflateInnerBox =
      { p with box_inner_width := w, box_inner_length := l } := by
  simp only [inflateInnerBox]
  split_ifs <;> exact ⟨_, _, rfl⟩

/-- `adjustMountHolderLength` touches only `mount_holder_length`. -/
lemma adjustMountHolderLength_shape (p : EnclosureParameters) :
    ∃ m, p.adjustMountHolderLength = { p with mount_holder_length := m } := by
  simp only [adjustMountHolderLength]
  split_ifs <;> exact ⟨_, rfl⟩

/-- The record shape of `initialized`: the four clearance additions, plus some
values of the two inner box dimensions and of the mount holder length; every
other field is carried over from the input. -/
lemma initialized_shape (p : EnclosureParameters) :
    ∃ w l m, p.initialized =
      { p with
        square_nut_width := p.square_nut_width + 0.4
        square_nut_height := p.square_nut_height + 0.4
        screw_head_diameter := p.screw_head_diameter + 0.5
        screw_total_length := p.screw_total_length + 1
        box_inner_width := w
        box_inner_length := l
        mount_holder_length := m } := by
  obtain ⟨w, l, hwl⟩ := inflateInnerBox_shape (addClearances p)
  obtain ⟨m, hm⟩ := adjustMountHolderLength_shape (addClearances p).inflateInnerBox
  refine ⟨w, l, m, ?_⟩
  rw [initialized, hm, hwl]
  rfl

/-- `screw_cylinder_radius` reads only the screw hole diameter, the screw type
and the square nut width. -/
lemma screw_cylinder_radius_congr (p q : EnclosureParameters)
    (h1 : p.screw_hole_diameter = q.screw_hole_diameter)
    (h2 : p.screw_type = q.screw_type)
    (h3 : p.square_nut_width = q.square_nut_width) :
    p.screw_cylinder_radius = q.screw_cylinder_radius := by
  simp only [screw_cylinder_radius, h1, h2, h3]

/-- The screw cylinder radius after `initialized` is the one of the
parameters right after the clearance additions. -/
lemma initialized_screw_cylinder_radius (p : EnclosureParameters) :
    (p.initialized).screw_cylinder_radius = (p.addClearances).screw_cylinder_radius := by
  obtain ⟨w, l, m, h⟩ := initialized_shape p
  rw [h]
  exact screw_cylinder_radius_congr _ _ rfl rfl rfl

end EnclosureParameters

/-- C5: for every parameter set, `box_outer_width` equals
`box_inner_width + 2 * wall_thickness`, `box_outer_length` equals
`box_inner_length + 2 * wall_thickness`, and `box_outer_height` equals
`box_inner_height + 2 * bottom_and_lid_thickness`, the wall thickness being
the fixed 3.0 and the lid/base thickness the fixed 2.0. -/
theorem claim_C5_outer_dimensions (p : EnclosureParameters) :
    p.box_outer_width = p.box_inner_width + 2 * p.wall_thickness ∧
    p.box_outer_length = p.box_inner_length + 2 * p.wall_thickness ∧
    p.box_outer_height = p.box_inner_height + 2 * p.bottom_and_lid_thickness ∧
    p.wall_thickness = 3.0 ∧ p.bottom_and_lid_thickness = 2.0 :=
  ⟨rfl, rfl, rfl, rfl, rfl⟩

/-- C7: a single `initialize` adds exactly 0.4 to `square_nut_width`, 0.4 to
`square_nut_height`, 0.5 to `screw_head_diameter` and 1.0 to
`screw_total_length`, and a second call adds the same increments again
(`initialize` is not idempotent). -/
theorem claim_C7_clearance_increments (p : EnclosureParameters) :
    ((p.initialized).square_nut_width = p.square_nut_width + 0.4 ∧
     (p.initialized).square_nut_height = p.square_nut_height + 0.4 ∧
     (p.initialized).screw_head_diameter = p.screw_head_diameter + 0.5 ∧
     (p.initialized).screw_total_length = p.screw_total_length + 1) ∧
    ((p.initialized.initialized).square_nut_width =
        (p.initialized).square_nut_width + 0.4 ∧
     (p.initialized.initialized).square_nut_height =
        (p.initialized).square_nut_height + 0.4 ∧
     (p.initialized.initialized).screw_head_diameter =
        (p.initialized).screw_head_diameter + 0.5 ∧
     (p.initialized.initialized).screw_total_length =
        (p.initialized).screw_total_length + 1) := by
  have key : ∀ q : EnclosureParameters,
      (q.initialized).square_nut_width = q.square_nut_width + 0.4 ∧
      (q.initialized).square_nut_height = q.square_nut_height + 0.4 ∧
      (q.initialized).screw_head_diameter = q.screw_head_diameter + 0.5 ∧
      (q.initialized).screw_total_length = q.screw_total_length + 1 := by
    intro q
    obtain ⟨w, l, m, h⟩ := initialized_shape q
    rw [h]
    exact ⟨rfl, rfl, rfl, rfl⟩
  exact ⟨key p, key p.initialized⟩

/-- C10: `initialize` modifies only `square_nut_width`, `square_nut_height`,
`screw_head_diameter`, `screw_total_length` and — conditionally — the two
inner box dimensions and `mount_holder_length`; every other primary field is
unchanged. -/
theorem claim_C10_frame (p : EnclosureParameters) :
    (p.initialized).box_inner_height = p.box_inner_height ∧
    (p.initialized).actual_inner_width = p.actual_inner_width ∧
    (p.initialized).actual_inner_length = p.actual_inner_length ∧
    (p.initialized).cut_top = p.cut_top ∧
    (p.initialized).screw_hole_diameter = p.screw_hole_diameter ∧
    (p.initialized).screw_location = p.screw_location ∧
    (p.initialized).screw_type = p.screw_type ∧
    (p.initialized).corner_screws = p.corner_screws ∧
    (p.initialized).middle_length_screws = p.middle_length_screws ∧
    (p.initialized).middle_width_screws = p.middle_width_screws ∧
    (p.initialized).nut_wa_type = p.nut_wa_type ∧
    (p.initialized).gasket_height = p.gasket_height ∧
    (p.initialized).gasket_width = p.gasket_width ∧
    (p.initialized).gasket_spacing = p.gasket_spacing ∧
    (p.initialized).gasket_compression = p.gasket_compression ∧
    (p.initialized).mount_holders = p.mount_holders ∧
    (p.initialized).mount_holders_screw_hole_diameter =
      p.mount_holders_screw_hole_diameter ∧
    (p.initialized).mount_holders_head_screw_diameter =
      p.mount_holders_head_screw_diameter ∧
    (p.initialized).mount_holders_fillet = p.mount_holders_fillet ∧
    (p.initialized).layer_height = p.layer_height ∧
    (p.initialized).fillet_bottom = p.fillet_bottom ∧
    (p.initialized).fillet_top = p.fillet_top := by
  obtain ⟨w, l, m, h⟩ := initialized_shape p
  rw [h]
  exact ⟨rfl, rfl, rfl, rfl, rfl, rfl, rfl, rfl, rfl, rfl, rfl, rfl, rfl, rfl,
    rfl, rfl, rfl, rfl, rfl, rfl, rfl, rfl⟩

/-- C4 counterexample: at the end-to-end scenario parameters, the outer
rectangle of the box's gasket groove differs from the outer rectangle of the
lid's gasket press (the groove is wider by the in-slot clearance), so the
three footprints are not all equal. -/
theorem claim_C4_counterexample :
    create_gasket_slot_rect_outer scenarioParams ≠
      create_gasket_press_rect_outer scenarioParams := by
  intro h
  have h1 := congrArg Prod.fst h
  simp only [create_gasket_slot_rect_outer, create_gasket_press_rect_outer,
    gasket_slot_outer_width, gasket_outer_width, gasket_in_slot_distance,
    box_outer_width, wall_thickness, scenarioParams] at h1
  norm_num at h1

/-- C4 amended: the lid press and the gasket body use identical footprints
(outer and inner), while the box groove's outer rectangle is larger than the
press's by `2 * gasket_spacing` in each dimension and its inner rectangle
smaller by the same amount — the gasket mates with clearance, not by equality
of all three footprints. -/
theorem claim_C4_amended (p : EnclosureParameters) :
    create_gasket_press_rect_outer p = build_gasket_rect_outer p ∧
    create_gasket_press_rect_inner p = build_gasket_rect_inner p ∧
    (create_gasket_slot_rect_outer p).1 =
      (create_gasket_press_rect_outer p).1 + 2 * p.gasket_spacing ∧
    (create_gasket_slot_rect_outer p).2 =
      (create_gasket_press_rect_outer p).2 + 2 * p.gasket_spacing ∧
    (create_gasket_slot_rect_inner p).1 =
      (create_gasket_press_rect_inner p).1 - 2 * p.gasket_spacing ∧
    (create_gasket_slot_rect_inner p).2 =
      (create_gasket_press_rect_inner p).2 - 2 * p.gasket_spacing := by
  refine ⟨rfl, rfl, ?_, ?_, ?_, ?_⟩ <;>
    simp only [create_gasket_slot_rect_outer, create_gasket_slot_rect_inner,
      create_gasket_press_rect_outer, create_gasket_press_rect_inner,
      gasket_slot_outer_width, gasket_slot_outer_length,
      gasket_slot_inner_width, gasket_slot_inner_length,
      gasket_outer_width, gasket_outer_length,
      gasket_inner_width, gasket_inner_length,
      gasket_in_slot_distance] <;> ring


namespace EnclosureParameters

/-- The inner box width after `inflateInnerBox`: inflated by
`2 * (2 * screw_cylinder_radius - wall_thickness)` exactly for inside-box
placement with (corner or middle-length screws) and `actual_inner_width`. -/
lemma inflateInnerBox_box_inner_width (p : EnclosureParameters) :
    (p.inflateInnerBox).box_inner_width =
      if p.screw_location = ScrewLocation.INSIDE_BOX ∧
          ((p.corner_screws ∨ p.middle_length_screws) ∧ p.actual_inner_width) then
        p.box_inner_width + 2 * (2 * p.screw_cylinder_radius - p.wall_thickness)
      else p.box_inner_width := by
  simp only [inflateInnerBox]
  split_ifs <;> simp_all

/-- The inner box length after `inflateInnerBox`: inflated by
`2 * (2 * screw_cylinder_radius - wall_thickness)` exactly for inside-box
placement with (corner or middle-width screws) and `actual_inner_length`;
the radius and the flags it reads are untouched by the width update that may
precede it. -/
lemma inflateInnerBox_box_inner_length (p : EnclosureParameters) :
    (p.inflateInnerBox).box_inner_length =
      if p.screw_location = ScrewLocation.INSIDE_BOX ∧
          ((p.corner_screws ∨ p.middle_width_screws) ∧ p.actual_inner_length) then
        p.box_inner_length + 2 * (2 * p.screw_cylinder_radius - p.wall_thickness)
      else p.box_inner_length := by
  simp only [inflateInnerBox]
  have hrad : ∀ w, ({ p with box_inner_width := w } : EnclosureParameters).screw_cylinder_radius
      = p.screw_cylinder_radius := fun w =>
    screw_cylinder_radius_congr _ _ rfl rfl rfl
  split_ifs <;> simp_all [hrad, wall_thickness]

end EnclosureParameters

/-- C2: `compute_screw_points` uses, for inside-box placement, offsets
`half inner dimension - screw_cylinder_radius + wall_thickness` and, for
outside-box placement, `half outer dimension + screw_cylinder_radius -
wall_thickness`, and returns the enabled groups in insertion order — the four
sign combinations of `(offset_x, offset_y)` for corner screws, then
`(±offset_x, 0)` for middle-length screws, then `(0, ±offset_y)` for
middle-width screws.  (The Python `match` also has a `case _: raise` arm; the
`ScrewLocation` enum has exactly the two handled members, so the arm is
unreachable and the Lean `match` is exhaustive without it.) -/
theorem claim_C2_screw_points (p : EnclosureParameters) :
    ∃ ox oy : ℝ,
      ((p.screw_location = ScrewLocation.INSIDE_BOX →
          ox = p.box_inner_width / 2 - p.screw_cylinder_radius + p.wall_thickness ∧
          oy = p.box_inner_length / 2 - p.screw_cylinder_radius + p.wall_thickness) ∧
       (p.screw_location = ScrewLocation.OUTSIDE_BOX →
          ox = p.box_outer_width / 2 + p.screw_cylinder_radius - p.wall_thickness ∧
          oy = p.box_outer_length / 2 + p.screw_cylinder_radius - p.wall_thickness)) ∧
      compute_screw_points p =
        (if p.corner_screws then
          [(ox, oy), (-ox, -oy), (ox, -oy), (-ox, oy)]
        else []) ++
        (if p.middle_length_screws then [(-ox, 0), (ox, 0)] else []) ++
        (if p.middle_width_screws then [(0, -oy), (0, oy)] else []) := by
  cases hp : p.screw_location with
  | INSIDE_BOX =>
      refine ⟨p.box_inner_width / 2 - p.screw_cylinder_radius + p.wall_thickness,
        p.box_inner_length / 2 - p.screw_cylinder_radius + p.wall_thickness,
        ⟨fun _ => ⟨rfl, rfl⟩, fun h => nomatch h⟩, ?_⟩
      simp only [compute_screw_points, hp]
  | OUTSIDE_BOX =>
      refine ⟨p.box_outer_width / 2 + p.screw_cylinder_radius - p.wall_thickness,
        p.box_outer_length / 2 + p.screw_cylinder_radius - p.wall_thickness,
        ⟨fun h => (nomatch h), fun _ => ⟨rfl, rfl⟩⟩, ?_⟩
      simp only [compute_screw_points, hp]

/-- C8: for inside-box placement, `initialize` inflates `box_inner_width` by
exactly `2 * (2 * screw_cylinder_radius - wall_thickness)` when (corner or
middle-length screws) and `actual_inner_width` hold, and symmetrically
inflates `box_inner_length` when (corner or middle-width screws) and
`actual_inner_length` hold, the radius being the one after the clearance
additions (equal to the radius of the initialized parameters); for
outside-box placement both inner dimensions are unchanged. -/
theorem claim_C8_inner_inflation (p : EnclosureParameters) :
    (p.screw_location = ScrewLocation.INSIDE_BOX →
      (((p.corner_screws ∨ p.middle_length_screws) ∧ p.actual_inner_width) →
        (p.initialized).box_inner_width =
          p.box_inner_width +
            2 * (2 * (p.initialized).screw_cylinder_radius - p.wall_thickness)) ∧
      (((p.corner_screws ∨ p.middle_width_screws) ∧ p.actual_inner_length) →
        (p.initialized).box_inner_length =
          p.box_inner_length +
            2 * (2 * (p.initialized).screw_cylinder_radius - p.wall_thickness))) ∧
    (p.screw_location = ScrewLocation.OUTSIDE_BOX →
      (p.initialized).box_inner_width = p.box_inner_width ∧
      (p.initialized).box_inner_length = p.box_inner_length) := by
  obtain ⟨m, hm⟩ := adjustMountHolderLength_shape (p.addClearances).inflateInnerBox
  have hw : (p.initialized).box_inner_width =
      ((p.addClearances).inflateInnerBox).box_inner_width := by
    rw [initialized, hm]
  have hl : (p.initialized).box_inner_length =
      ((p.addClearances).inflateInnerBox).box_inner_length := by
    rw [initialized, hm]
  have hrad := initialized_screw_cylinder_radius p
  rw [hw, hl, hrad, inflateInnerBox_box_inner_width, inflateInnerBox_box_inner_length]
  constructor
  · intro hloc
    constructor
    · intro hc
      rw [if_pos]
      · rfl
      · exact ⟨hloc, hc⟩
    · intro hc
      rw [if_pos]
      · rfl
      · exact ⟨hloc, hc⟩
  · intro hloc
    constructor <;> rw [if_neg] <;> first
      | rfl
      | (rintro ⟨h1, -⟩
         have h1' : p.screw_location = ScrewLocation.INSIDE_BOX := h1
         rw [hloc] at h1'
         cases h1')


namespace EnclosureParameters

/-- Python's `sum` of the three screw-group booleans is zero exactly when all
three are false. -/
lemma screw_flags_sum_eq_zero (a b c : Bool) :
    ((if a then 1 else 0) + (if b then 1 else 0) + (if c then 1 else 0) = (0 : ℕ)) ↔
      (a = false ∧ b = false ∧ c = false) := by
  cases a <;> cases b <;> cases c <;> simp

end EnclosureParameters

/-- C1: `build` runs initialize, then validate, and — only when validate
succeeds — the fixed pipeline: selectors and screw points against the
finalized parameters, base box, screw cylinders, screw holes, fillets, nut
pockets exactly when `screw_type = WITH_SQUARE_NUT`, split, gasket slot on
the box, gasket press on the lid, gasket body, gasket fillets, and mount
holders exactly when `mount_holders` is true (both conditions being the
caller-supplied flags, which initialize leaves unchanged); when validate
returns an error, `build` returns that error and no construction step runs. -/
theorem claim_C1_pipeline_order (p : EnclosureParameters) :
    (∀ e, (p.initialized).validate = Except.error e →
        Enclosure.build p = Except.error e) ∧
    ((p.initialized).validate = Except.ok () →
      Enclosure.build p =
        Except.ok
          ([BuildStep.selectors, BuildStep.screwPoints, BuildStep.baseBox,
            BuildStep.screwCylinders, BuildStep.screwHoles, BuildStep.filletBox] ++
          (if p.screw_type = ScrewType.WITH_SQUARE_NUT then [BuildStep.nutHoles]
            else []) ++
          [BuildStep.splitBox, BuildStep.gasketSlot, BuildStep.gasketPress,
            BuildStep.gasketBody, BuildStep.gasketFillets] ++
          (if p.mount_holders then [BuildStep.mountHolders] else []))) := by
  have hty : (p.initialized).screw_type = p.screw_type := by
    obtain ⟨w, l, m, h⟩ := initialized_shape p
    rw [h]
  have hmh : (p.initialized).mount_holders = p.mount_holders := by
    obtain ⟨w, l, m, h⟩ := initialized_shape p
    rw [h]
  constructor
  · intro e he
    simp only [Enclosure.build, he]
  · intro hok
    simp only [Enclosure.build, hok, hty, hmh]

/-- C9: on parameters that went through `initialize` (the state `build` hands
to `validate`), the validate branch for `mount_holder_length <
4 * screw_cylinder_radius` cannot fire: under its own guard (mount holders,
middle-width screws, outside-box placement — all untouched by initialize),
initialize has already raised `mount_holder_length` to at least
`ceil(4 * screw_cylinder_radius)`. -/
theorem claim_C9_mount_check_unreachable (p : EnclosureParameters)
    (h : (p.initialized).mount_holders ∧ (p.initialized).middle_width_screws ∧
      (p.initialized).screw_location = ScrewLocation.OUTSIDE_BOX) :
    ¬((p.initialized).mount_holder_length <
        (p.initialized).screw_cylinder_radius * 4) := by
  have hq : p.initialized = ((p.addClearances).inflateInnerBox).adjustMountHolderLength :=
    rfl
  obtain ⟨m, hm⟩ := adjustMountHolderLength_shape (p.addClearances).inflateInnerBox
  rw [hq, hm] at h
  have hcond : ((p.addClearances).inflateInnerBox).mount_holders ∧
      ((p.addClearances).inflateInnerBox).middle_width_screws ∧
      ((p.addClearances).inflateInnerBox).screw_location = ScrewLocation.OUTSIDE_BOX :=
    ⟨h.1, h.2.1, h.2.2⟩
  have hval : p.initialized =
      { (p.addClearances).inflateInnerBox with
        mount_holder_length :=
          max ((p.addClearances).inflateInnerBox).mount_holder_length
            ((Int.ceil (((p.addClearances).inflateInnerBox).screw_cylinder_radius * 4) :
              ℤ) : ℝ) } := by
    rw [hq, adjustMountHolderLength, if_pos hcond]
  rw [hval]
  have hr : ({ (p.addClearances).inflateInnerBox with
      mount_holder_length :=
        max ((p.addClearances).inflateInnerBox).mount_holder_length
          ((Int.ceil (((p.addClearances).inflateInnerBox).screw_cylinder_radius * 4) :
            ℤ) : ℝ) } : EnclosureParameters).screw_cylinder_radius =
      ((p.addClearances).inflateInnerBox).screw_cylinder_radius :=
    screw_cylinder_radius_congr _ _ rfl rfl rfl
  rw [hr]
  exact not_lt.mpr (le_trans (Int.le_ceil _) (le_max_right _ _))

/-- C9 witness: the guard holds and the branch cannot fire at the concrete
end-to-end scenario parameters. -/
theorem claim_C9_witness :
    ¬(scenarioParams.initialized.mount_holder_length <
        scenarioParams.initialized.screw_cylinder_radius * 4) :=
  claim_C9_mount_check_unreachable scenarioParams
    ⟨by
      obtain ⟨w, l, m, h⟩ := initialized_shape scenarioParams
      rw [h]
      rfl,
      by
        obtain ⟨w, l, m, h⟩ := initialized_shape scenarioParams
        rw [h]
        rfl,
      by
        obtain ⟨w, l, m, h⟩ := initialized_shape scenarioParams
        rw [h]
        rfl⟩


/-- C6: `validate` raises an error exactly when at least one of the five
invariants is violated — all three screw-group flags false; screw hole
diameter strictly outside [2.0, 6.0]; inner width strictly greater than inner
length; mount holders with middle-width screws and outside-box placement and
`mount_holder_length < 4 * screw_cylinder_radius`; or mount holders with
corner screws and outside-box placement and inner width below 31.0 — and the
error it returns is the one of the first violated invariant in that order
(so no geometry-building step observes an invalid configuration). -/
theorem claim_C6_validate_iff (p : EnclosureParameters) :
    ((∃ e, p.validate = Except.error e) ↔
      ((p.corner_screws = false ∧ p.middle_length_screws = false ∧
          p.middle_width_screws = false) ∨
        (p.screw_hole_diameter < 2.0 ∨ p.screw_hole_diameter > 6.0) ∨
        p.box_inner_width > p.box_inner_length ∨
        (p.mount_holders ∧ p.middle_width_screws ∧
          p.screw_location = ScrewLocation.OUTSIDE_BOX ∧
          p.mount_holder_length < p.screw_cylinder_radius * 4) ∨
        (p.screw_location = ScrewLocation.OUTSIDE_BOX ∧ p.box_inner_width < 31.0 ∧
          p.mount_holders ∧ p.corner_screws))) ∧
    ((p.corner_screws = false ∧ p.middle_length_screws = false ∧
        p.middle_width_screws = false) →
      p.validate = Except.error EnclosureError.noScrews) ∧
    (¬(p.corner_screws = false ∧ p.middle_length_screws = false ∧
        p.middle_width_screws = false) →
      (p.screw_hole_diameter < 2.0 ∨ p.screw_hole_diameter > 6.0) →
      p.validate = Except.error EnclosureError.screwHoleDiameterOutOfRange) ∧
    (¬(p.corner_screws = false ∧ p.middle_length_screws = false ∧
        p.middle_width_screws = false) →
      ¬(p.screw_hole_diameter < 2.0 ∨ p.screw_hole_diameter > 6.0) →
      p.box_inner_width > p.box_inner_length →
      p.validate = Except.error EnclosureError.innerWidthGreaterThanInnerLength) ∧
    (¬(p.corner_screws = false ∧ p.middle_length_screws = false ∧
        p.middle_width_screws = false) →
      ¬(p.screw_hole_diameter < 2.0 ∨ p.screw_hole_diameter > 6.0) →
      ¬(p.box_inner_width > p.box_inner_length) →
      (p.mount_holders ∧ p.middle_width_screws ∧
        p.screw_location = ScrewLocation.OUTSIDE_BOX ∧
        p.mount_holder_length < p.screw_cylinder_radius * 4) →
      p.validate = Except.error
        (EnclosureError.mountHolderLengthTooSmall (p.screw_cylinder_radius * 4))) ∧
    (¬(p.corner_screws = false ∧ p.middle_length_screws = false ∧
        p.middle_width_screws = false) →
      ¬(p.screw_hole_diameter < 2.0 ∨ p.screw_hole_diameter > 6.0) →
      ¬(p.box_inner_width > p.box_inner_length) →
      ¬(p.mount_holders ∧ p.middle_width_screws ∧
        p.screw_location = ScrewLocation.OUTSIDE_BOX ∧
        p.mount_holder_length < p.screw_cylinder_radius * 4) →
      (p.screw_location = ScrewLocation.OUTSIDE_BOX ∧ p.box_inner_width < 31.0 ∧
        p.mount_holders ∧ p.corner_screws) →
      p.validate = Except.error EnclosureError.boxWidthTooSmallForMountHolders) := by
  have hsum := screw_flags_sum_eq_zero p.corner_screws p.middle_length_screws
    p.middle_width_screws
  unfold validate
  simp only [hsum]
  split_ifs with h1 h2 h3 h4 h5
  · exact ⟨⟨fun _ => Or.inl h1, fun _ => ⟨_, rfl⟩⟩,
      fun _ => rfl,
      fun hn1 _ => absurd h1 hn1,
      fun hn1 _ _ => absurd h1 hn1,
      fun hn1 _ _ _ => absurd h1 hn1,
      fun hn1 _ _ _ _ => absurd h1 hn1⟩
  · exact ⟨⟨fun _ => Or.inr (Or.inl h2), fun _ => ⟨_, rfl⟩⟩,
      fun hv1 => absurd hv1 h1,
      fun _ _ => rfl,
      fun _ hn2 _ => absurd h2 hn2,
      fun _ hn2 _ _ => absurd h2 hn2,
      fun _ hn2 _ _ _ => absurd h2 hn2⟩
  · exact ⟨⟨fun _ => Or.inr (Or.inr (Or.inl h3)), fun _ => ⟨_, rfl⟩⟩,
      fun hv1 => absurd hv1 h1,
      fun _ hv2 => absurd hv2 h2,
      fun _ _ _ => rfl,
      fun _ _ hn3 _ => absurd h3 hn3,
      fun _ _ hn3 _ _ => absurd h3 hn3⟩
  · exact ⟨⟨fun _ => Or.inr (Or.inr (Or.inr (Or.inl h4))), fun _ => ⟨_, rfl⟩⟩,
      fun hv1 => absurd hv1 h1,
      fun _ hv2 => absurd hv2 h2,
      fun _ _ hv3 => absurd hv3 h3,
      fun _ _ _ _ => rfl,
      fun _ _ _ hn4 _ => absurd h4 hn4⟩
  · exact ⟨⟨fun _ => Or.inr (Or.inr (Or.inr (Or.inr h5))), fun _ => ⟨_, rfl⟩⟩,
      fun hv1 => absurd hv1 h1,
      fun _ hv2 => absurd hv2 h2,
      fun _ _ hv3 => absurd hv3 h3,
      fun _ _ _ hv4 => absurd hv4 h4,
      fun _ _ _ _ _ => rfl⟩
  · refine ⟨⟨fun he => ?_, fun hdisj => ?_⟩,
      fun hv1 => absurd hv1 h1,
      fun _ hv2 => absurd hv2 h2,
      fun _ _ hv3 => absurd hv3 h3,
      fun _ _ _ hv4 => absurd hv4 h4,
      fun _ _ _ _ hv5 => absurd hv5 h5⟩
    · obtain ⟨e, he⟩ := he
      exact (nomatch he)
    · rcases hdisj with hv1 | hv2 | hv3 | hv4 | hv5
      · exact absurd hv1 h1
      · exact absurd hv2 h2
      · exact absurd hv3 h3
      · exact absurd hv4 h4
      · exact absurd hv5 h5


/-- C3: for inner dimensions 31×71×16 with outside-box placement, wood-screw
fastening, corner screws off, middle-width screws on and defaults elsewhere,
after initialize the solver yields exactly the 2 screw points `(0, ±L)` with
`L = box_outer_length / 2 + screw_cylinder_radius - wall_thickness`,
`validate` raises no error, and the outer box dimensions are 37 wide, 77
long and 20 tall. -/
theorem claim_C3_scenario :
    compute_screw_points scenarioParams.initialized =
      [(0, -(scenarioParams.initialized.box_outer_length / 2 +
            scenarioParams.initialized.screw_cylinder_radius -
            scenarioParams.initialized.wall_thickness)),
        (0, scenarioParams.initialized.box_outer_length / 2 +
            scenarioParams.initialized.screw_cylinder_radius -
            scenarioParams.initialized.wall_thickness)] ∧
    (compute_screw_points scenarioParams.initialized).length = 2 ∧
    scenarioParams.initialized.validate = Except.ok () ∧
    scenarioParams.initialized.box_outer_width = 37 ∧
    scenarioParams.initialized.box_outer_length = 77 ∧
    scenarioParams.initialized.box_outer_height = 20 := by
  refine ⟨rfl, rfl, ?_, ?_, ?_, ?_⟩
  · have hc1 : ¬((if scenarioParams.initialized.corner_screws then 1 else 0) +
        (if scenarioParams.initialized.middle_length_screws then 1 else 0) +
        (if scenarioParams.initialized.middle_width_screws then 1 else 0) = (0 : ℕ)) := by
      decide
    have hc2 : ¬(scenarioParams.initialized.screw_hole_diameter < 2.0 ∨
        scenarioParams.initialized.screw_hole_diameter > 6.0) := by
      have hd : scenarioParams.initialized.screw_hole_diameter = 3.0 + 0.3 := rfl
      rw [hd]
      norm_num
    have hc3 : ¬(scenarioParams.initialized.box_inner_width >
        scenarioParams.initialized.box_inner_length) := by
      have hw : scenarioParams.initialized.box_inner_width = 31 := rfl
      have hl : scenarioParams.initialized.box_inner_length = 71 := rfl
      rw [hw, hl]
      norm_num
    have hc4 : ¬(scenarioParams.initialized.mount_holders ∧
        scenarioParams.initialized.middle_width_screws ∧
        scenarioParams.initialized.screw_location = ScrewLocation.OUTSIDE_BOX ∧
        scenarioParams.initialized.mount_holder_length <
          scenarioParams.initialized.screw_cylinder_radius * 4) := by
      rintro ⟨-, -, -, hlt⟩
      have hmhl : scenarioParams.initialized.mount_holder_length =
          max scenarioParams.addClearances.mount_holder_length
            ((Int.ceil (scenarioParams.addClearances.screw_cylinder_radius * 4) :
              ℤ) : ℝ) := rfl
      have hrad : scenarioParams.initialized.screw_cylinder_radius =
          scenarioParams.addClearances.screw_cylinder_radius := rfl
      rw [hmhl, hrad] at hlt
      exact absurd hlt (not_lt.mpr (le_trans (Int.le_ceil _) (le_max_right _ _)))
    have hc5 : ¬(scenarioParams.initialized.screw_location =
          ScrewLocation.OUTSIDE_BOX ∧
        scenarioParams.initialized.box_inner_width < 31.0 ∧
        scenarioParams.initialized.mount_holders ∧
        scenarioParams.initialized.corner_screws) := by
      rintro ⟨-, hlt, -, -⟩
      have hw : scenarioParams.initialized.box_inner_width = 31 := rfl
      rw [hw] at hlt
      norm_num at hlt
    unfold validate
    rw [if_neg hc1, if_neg hc2, if_neg hc3, if_neg hc4, if_neg hc5]
  · show (31 : ℝ) + 2 * 3.0 = 37
    norm_num
  · show (71 : ℝ) + 2 * 3.0 = 77
    norm_num
  · show (16 : ℝ) + 2 * 2.0 = 20
    norm_num

end CqEnclosure
